import Mathlib

/-!
Verification of the IoT threat-monitor ingestion core.

This file shallowly embeds the message-processing pipeline of
`backend/mqtt_handler.py` and the datastore operations of
`backend/firebase_config.py`, and proves the behavioural properties of the
pipeline against that embedding.

Modelling conventions:
* JSON payload fields are modelled by a record of `Option` fields
  (`some v` = the key is present with value `v`); numeric readings are `Int`.
* ISO-8601 timestamp strings produced by `datetime.now().isoformat()` are
  modelled by `Nat` (their lexicographic order is chronological order).
* The scaler/classifier artifacts (`scaler.pkl`, `iot_model.pkl`) are external
  opaque components; they are modelled as optional function fields of
  `MLContext`, `none` meaning "not loaded".  An exception raised inside
  `scaler.transform` / `model.predict` / `model.decision_function` is modelled
  by the function returning `Except.error`.
* The continuous anomaly score (a Python float) is modelled by `Rat`; the code
  only ever compares it against the constant `-0.5`.
* Firebase Realtime Database state is modelled by `DBState`:
  `ref.push` on `/alerts` and `/devices/{id}/readings` appends to a list,
  `ref.update` on `/devices/{id}/status` merges the given keys into the status
  node, and `ref.set` on `/devices/{id}/status` replaces the whole node.
-/

/-- A decoded JSON payload, as accessed by `process_sensor_data`
(`mqtt_handler.py`). `some v` models key presence (`"k" in data`),
`none` models an absent key. -/
structure Payload where
  pir_motion : Option Int := none
  gas_value : Option Int := none
  gas_level : Option Int := none
  temperature : Option Int := none
  humidity : Option Int := none
  location : Option String := none
  rssi : Option Int := none
  uptime : Option Int := none
deriving DecidableEq

/-- The module-level `model` and `scaler` globals of `mqtt_handler.py`.
`scaler` models `scaler.transform` on the feature row
`[temperature, humidity, gas_level]`; `model` models
`model.predict` (first component, `-1` = anomaly, `1` = normal) together with
`model.decision_function` (second component, the continuous score).
An `Except.error` result models an exception raised in the scoring path. -/
structure MLContext where
  scaler : Option (Int → Int → Int → Except String (Rat × Rat × Rat))
  model : Option ((Rat × Rat × Rat) → Except String (Int × Rat))

/-- `detect_anomaly` (`mqtt_handler.py`, lines 74-121).
Returns `(is_anomaly, anomaly_score, reasons)`.  If either artifact is not
loaded, or the scoring path raises, returns `(false, 0, [])`. -/
def detect_anomaly (ctx : MLContext) (temperature humidity gas_level : Int) :
    Bool × Rat × List String :=
  match ctx.model, ctx.scaler with
  | some model, some scaler =>
    match scaler temperature humidity gas_level with
    | Except.error _ => (false, 0, [])
    | Except.ok x_scaled =>
      match model x_scaled with
      | Except.error _ => (false, 0, [])
      | Except.ok (prediction, anomaly_score) =>
        let is_anomaly := prediction == -1
        let reasons : List String :=
          if is_anomaly then
            let r1 := if temperature > 40 ∨ temperature < 10 then
                ["Abnormal temperature: " ++ toString temperature ++ "¬∞C"] else []
            let r2 := if humidity > 80 ∨ humidity < 20 then
                ["Abnormal humidity: " ++ toString humidity ++ "%"] else []
            let r3 := if gas_level > 500 then
                ["High gas level detected: " ++ toString gas_level] else []
            let rs := r1 ++ r2 ++ r3
            if rs = [] then ["Unusual sensor pattern detected"] else rs
          else []
        (is_anomaly, anomaly_score, reasons)
  | _, _ => (false, 0, [])

/-- One record pushed to `/devices/{id}/readings` (the `reading_data` dict
built by each branch of `process_sensor_data`). Fields not set by a branch
are `none`. -/
structure ReadingData where
  sensor_type : String
  pir_motion : Option Int := none
  motion_detected : Option Bool := none
  gas_value : Option Int := none
  gas_level : Option Int := none
  is_high : Option Bool := none
  temperature : Option Int := none
  humidity : Option Int := none
  location : Option String := none
  rssi : Option Int := none
  uptime : Option Int := none
  timestamp : Nat
  is_anomaly : Bool
  anomaly_score : Option Rat := none
deriving DecidableEq

/-- The `/devices/{id}/status` node.  Every key that any write in the source
can put there is a field; `none` = key absent from the node. -/
structure StatusNode where
  state : Option String := none
  last_seen : Option Nat := none
  sensor_type : Option String := none
  motion_detected : Option Bool := none
  gas_level : Option Int := none
  is_high : Option Bool := none
  temperature : Option Int := none
  humidity : Option Int := none
  last_alert : Option Nat := none
  message : Option String := none
deriving DecidableEq

/-- One record pushed to `/alerts` (the `alert_data` dict built by each branch
of `process_sensor_data`). -/
structure Alert where
  device_id : String
  timestamp : Nat
  type : String
  severity : String
  pir_motion : Option Int := none
  gas_level : Option Int := none
  temperature : Option Int := none
  humidity : Option Int := none
  anomaly_score : Option Rat := none
  reasons : Option (List String) := none
  message : String
  acknowledged : Bool
deriving DecidableEq

/-- What one call of `process_sensor_data` computes for one reading:
the reading record, the status dict passed to `update_device_status`, the
alerts passed to `save_alert` (zero or one in the source), and the
human-readable explanation strings the branch constructs (the `reasons` list
of `detect_anomaly` for the environmental branch, and the alert message the
rule-based branches build under their anomaly conditional,
lines 244 and 290). -/
structure ProcResult where
  reading : ReadingData
  statusUpdate : StatusNode
  alerts : List Alert
  reasons : List String
deriving DecidableEq

/-- `data.get('gas_value', data.get('gas_level', 0))` (line 256). -/
def gasValueOf (data : Payload) : Int :=
  match data.gas_value with
  | some v => v
  | none => data.gas_level.getD 0

/-- The PIR branch of `process_sensor_data` (lines 212-252). -/
def process_pir (device_id : String) (data : Payload) (timestamp : Nat) : ProcResult :=
  let pir_value := data.pir_motion.getD 0
  let motion_detected := pir_value == 0
  { reading :=
      { sensor_type := "pir"
        pir_motion := some pir_value
        motion_detected := some motion_detected
        timestamp := timestamp
        is_anomaly := motion_detected }
    statusUpdate :=
      { state := some (if motion_detected then "threat" else "normal")
        last_seen := some timestamp
        sensor_type := some "pir"
        motion_detected := some motion_detected }
    alerts :=
      if motion_detected then
        [{ device_id := device_id
           timestamp := timestamp
           type := "motion"
           severity := "high"
           pir_motion := some pir_value
           message := "üö® Motion Detected!"
           acknowledged := false }]
      else []
    reasons := if motion_detected then ["üö® Motion Detected!"] else [] }

/-- The gas branch of `process_sensor_data` (lines 255-298);
`gas_threshold = 500`. -/
def process_gas (device_id : String) (data : Payload) (timestamp : Nat) : ProcResult :=
  let gas_value := gasValueOf data
  let is_high_gas : Bool := gas_value > 500
  { reading :=
      { sensor_type := "gas"
        gas_value := some gas_value
        gas_level := some gas_value
        is_high := some is_high_gas
        timestamp := timestamp
        is_anomaly := is_high_gas }
    statusUpdate :=
      { state := some (if is_high_gas then "threat" else "normal")
        last_seen := some timestamp
        sensor_type := some "gas"
        gas_level := some gas_value
        is_high := some is_high_gas }
    alerts :=
      if is_high_gas then
        [{ device_id := device_id
           timestamp := timestamp
           type := "gas"
           severity := "high"
           gas_level := some gas_value
           message := "üî• High Gas Level Detected: " ++ toString gas_value
           acknowledged := false }]
      else []
    reasons :=
      if is_high_gas then
        ["üî• High Gas Level Detected: " ++ toString gas_value]
      else [] }

/-- The environmental (temperature/humidity/gas triple) branch of
`process_sensor_data` (lines 300-356). -/
def process_env (ctx : MLContext) (device_id : String) (data : Payload)
    (sensor_type : String) (timestamp : Nat) : ProcResult :=
  let temperature := data.temperature.getD 0
  let humidity := data.humidity.getD 0
  let gas_level := data.gas_level.getD 0
  let r := detect_anomaly ctx temperature humidity gas_level
  let is_anomaly := r.1
  let score := r.2.1
  let reasons := r.2.2
  { reading :=
      { sensor_type := sensor_type
        temperature := some temperature
        humidity := some humidity
        gas_level := some gas_level
        location := some (data.location.getD "Unknown")
        rssi := some (data.rssi.getD 0)
        uptime := some (data.uptime.getD 0)
        timestamp := timestamp
        is_anomaly := is_anomaly
        anomaly_score := some score }
    statusUpdate :=
      { state := some (if is_anomaly then "threat" else "normal")
        last_seen := some timestamp
        sensor_type := some sensor_type
        temperature := some temperature
        humidity := some humidity
        gas_level := some gas_level }
    alerts :=
      if is_anomaly then
        [{ device_id := device_id
           timestamp := timestamp
           type := "anomaly"
           severity := if score < -(1/2 : Rat) then "high" else "medium"
           temperature := some temperature
           humidity := some humidity
           gas_level := some gas_level
           anomaly_score := some score
           reasons := some reasons
           message :=
             match reasons with
             | [] => "Anomaly detected"
             | _ => String.intercalate " | " reasons
           acknowledged := false }]
      else []
    reasons := reasons }

/-- `process_sensor_data` (`mqtt_handler.py`, lines 197-356): the branch
dispatch on sensor type and payload fields.  The PIR branch is tried first
(`sensor_type == "pir" or "pir_motion" in data`), then the gas branch
(`sensor_type == "gas" or "gas_value" in data`), then the environmental
branch. -/
def process_sensor_data (ctx : MLContext) (device_id : String) (data : Payload)
    (sensor_type : String) (timestamp : Nat) : ProcResult :=
  if sensor_type = "pir" ∨ data.pir_motion.isSome = true then
    process_pir device_id data timestamp
  else if sensor_type = "gas" ∨ data.gas_value.isSome = true then
    process_gas device_id data timestamp
  else
    process_env ctx device_id data sensor_type timestamp

/-! ### Datastore semantics (`firebase_config.py`) -/

/-- The Firebase Realtime Database state touched by the pipeline:
`/devices/{id}/readings` (appended), `/alerts` (appended) and
`/devices/{id}/status` (one node per device, association list). -/
structure DBState where
  readings : List (String × ReadingData) := []
  alerts : List Alert := []
  status : List (String × StatusNode) := []
deriving DecidableEq

/-- Look up the status node of a device; an absent node reads as the empty
node (Firebase `update` on a missing path creates it). -/
def lookupStatus : List (String × StatusNode) → String → StatusNode
  | [], _ => {}
  | (d, n) :: rest, device_id => if d = device_id then n else lookupStatus rest device_id

/-- Replace (or create) the status node of a device. -/
def setStatus : List (String × StatusNode) → String → StatusNode → List (String × StatusNode)
  | [], device_id, n => [(device_id, n)]
  | (d, n0) :: rest, device_id, n =>
    if d = device_id then (device_id, n) :: rest else (d, n0) :: setStatus rest device_id n

/-- Key-wise merge: keys present in the update dict overwrite, absent keys
keep their stored value (Firebase `ref.update`). -/
def mergeField (upd old : Option α) : Option α :=
  match upd with
  | some v => some v
  | none => old

/-- Merge an update dict into a stored status node (Firebase `ref.update` on
`/devices/{id}/status`). -/
def mergeStatus (old upd : StatusNode) : StatusNode :=
  { state := mergeField upd.state old.state
    last_seen := mergeField upd.last_seen old.last_seen
    sensor_type := mergeField upd.sensor_type old.sensor_type
    motion_detected := mergeField upd.motion_detected old.motion_detected
    gas_level := mergeField upd.gas_level old.gas_level
    is_high := mergeField upd.is_high old.is_high
    temperature := mergeField upd.temperature old.temperature
    humidity := mergeField upd.humidity old.humidity
    last_alert := mergeField upd.last_alert old.last_alert
    message := mergeField upd.message old.message }

/-- `save_device_data` (`firebase_config.py`, lines 88-106):
push the reading onto `/devices/{id}/readings`. -/
def save_device_data (db : DBState) (device_id : String) (data : ReadingData) : DBState :=
  { db with readings := db.readings ++ [(device_id, data)] }

/-- `update_device_status` (`firebase_config.py`, lines 140-155):
`ref.update(status)` on `/devices/{id}/status`. -/
def update_device_status (db : DBState) (device_id : String) (status : StatusNode) : DBState :=
  let merged := mergeStatus (lookupStatus db.status device_id) status
  { db with status := setStatus db.status device_id merged }

/-- `save_alert` (`firebase_config.py`, lines 109-137): push the alert onto
`/alerts`, then `ref.set` the three-key dict
`{state: "threat", last_alert: .., message: ..}` over `/devices/{id}/status`,
replacing the whole node.  `status_write_ok = false` models an exception
raised by the secondary status write: it is caught by the surrounding
`except`, so the already-pushed alert stays. -/
def save_alert (db : DBState) (device_id : String) (alert_data : Alert)
    (status_write_ok : Bool) : DBState :=
  let db1 := { db with alerts := db.alerts ++ [alert_data] }
  let alert_node : StatusNode :=
    { state := some "threat"
      last_alert := some alert_data.timestamp
      message := some alert_data.message }
  if status_write_ok then
    { db1 with status := setStatus db1.status device_id alert_node }
  else db1

/-- One `process_sensor_data` call as a datastore transformation, issuing the
writes in source order: `save_device_data`, `update_device_status`, then
`save_alert` for each alert built (zero or one). -/
def process_db (ctx : MLContext) (device_id : String) (data : Payload)
    (sensor_type : String) (timestamp : Nat) (status_write_ok : Bool)
    (db : DBState) : DBState :=
  let r := process_sensor_data ctx device_id data sensor_type timestamp
  let db1 := save_device_data db device_id r.reading
  let db2 := update_device_status db1 device_id r.statusUpdate
  r.alerts.foldl (fun acc a => save_alert acc device_id a status_write_ok) db2

/-! ### Topic decoding and the message callback (`mqtt_handler.py`) -/

/-- Python `str.split` with a one-character separator: splitting the empty
string gives `[[]]`, and every occurrence of the separator produces a cut. -/
def splitOnCharList (c : Char) : List Char → List (List Char)
  | [] => [[]]
  | x :: xs =>
    let r := splitOnCharList c xs
    if x = c then [] :: r
    else
      match r with
      | [] => [[x]]
      | y :: ys => (x :: y) :: ys

/-- `msg.topic.split("/")` (line 164). -/
def split_topic (topic : String) : List String :=
  (splitOnCharList '/' topic.data).map (fun cs => String.mk cs)

/-- The topic-decoding logic of `on_message` (lines 162-178):
returns `(sensor_type, device_name, device_id)`. -/
def parse_topic (topic : String) : String × String × String :=
  match split_topic topic with
  | _ :: s1 :: s2 :: _ => (s1, s2, s1 ++ "_" ++ s2)
  | _ :: s1 :: [] => (s1, "default", s1 ++ "_default")
  | _ => ("unknown", "unknown", "unknown_device")

/-- `on_message` (`mqtt_handler.py`, lines 156-193) as a datastore
transformation.  `raw` is the result of `json.loads(msg.payload)`:
`Except.error` models a `JSONDecodeError`, which the callback catches —
the message is dropped and the datastore is untouched. -/
def on_message (ctx : MLContext) (topic : String) (raw : Except String Payload)
    (timestamp : Nat) (status_write_ok : Bool) (db : DBState) : DBState :=
  match raw with
  | Except.error _ => db
  | Except.ok payload =>
    let p := parse_topic topic
    process_db ctx p.2.2 payload p.1 timestamp status_write_ok db

/-- Sequential processing of a stream of inbound messages, each a
`(topic, decoded payload, arrival timestamp)` triple. -/
def runMessages (ctx : MLContext) (status_write_ok : Bool) :
    List (String × Except String Payload × Nat) → DBState → DBState
  | [], db => db
  | (topic, raw, ts) :: rest, db =>
    runMessages ctx status_write_ok rest (on_message ctx topic raw ts status_write_ok db)

/-! ### Helper lemmas -/

theorem process_eq_pir (ctx : MLContext) (device_id : String) (data : Payload)
    (sensor_type : String) (timestamp : Nat)
    (h : sensor_type = "pir" ∨ data.pir_motion.isSome = true) :
    process_sensor_data ctx device_id data sensor_type timestamp
      = process_pir device_id data timestamp := by
  unfold process_sensor_data
  rw [if_pos h]

theorem process_eq_gas (ctx : MLContext) (device_id : String) (data : Payload)
    (sensor_type : String) (timestamp : Nat)
    (h1 : ¬ (sensor_type = "pir" ∨ data.pir_motion.isSome = true))
    (h2 : sensor_type = "gas" ∨ data.gas_value.isSome = true) :
    process_sensor_data ctx device_id data sensor_type timestamp
      = process_gas device_id data timestamp := by
  unfold process_sensor_data
  rw [if_neg h1, if_pos h2]

theorem process_eq_env (ctx : MLContext) (device_id : String) (data : Payload)
    (sensor_type : String) (timestamp : Nat)
    (h1 : ¬ (sensor_type = "pir" ∨ data.pir_motion.isSome = true))
    (h2 : ¬ (sensor_type = "gas" ∨ data.gas_value.isSome = true)) :
    process_sensor_data ctx device_id data sensor_type timestamp
      = process_env ctx device_id data sensor_type timestamp := by
  unfold process_sensor_data
  rw [if_neg h1, if_neg h2]

theorem lookup_set_same (l : List (String × StatusNode)) (d : String) (n : StatusNode) :
    lookupStatus (setStatus l d n) d = n := by
  induction l with
  | nil => simp [setStatus, lookupStatus]
  | cons p t ih =>
    obtain ⟨d0, n0⟩ := p
    by_cases hd : d0 = d
    · simp [setStatus, hd, lookupStatus]
    · simp [setStatus, hd, lookupStatus, ih]

theorem save_alert_alerts (db : DBState) (device_id : String) (a : Alert) (ok : Bool) :
    (save_alert db device_id a ok).alerts = db.alerts ++ [a] := by
  cases ok <;> rfl

theorem foldl_save_alert_alerts (device_id : String) (ok : Bool) (l : List Alert) :
    ∀ db : DBState,
      (l.foldl (fun acc a => save_alert acc device_id a ok) db).alerts = db.alerts ++ l := by
  induction l with
  | nil => intro db; simp
  | cons a t ih =>
    intro db
    simp only [List.foldl_cons, ih, save_alert_alerts, List.append_assoc, List.singleton_append]

theorem reasons_fallback_ne_nil (rs : List String) (gen : String) :
    (if rs = [] then [gen] else rs) ≠ [] := by
  cases rs <;> simp

theorem detect_reasons_empty_iff (ctx : MLContext) (t h g : Int) :
    ((detect_anomaly ctx t h g).2.2 = [] ↔ (detect_anomaly ctx t h g).1 = false) := by
  unfold detect_anomaly
  rcases hm : ctx.model with _ | m
  · simp
  rcases hs : ctx.scaler with _ | s
  · simp
  rcases hr : s t h g with e | xs
  · simp [hr]
  rcases hp : m xs with e | p
  · simp [hr, hp]
  obtain ⟨pred, score⟩ := p
  simp only [hr, hp]
  by_cases hb : (pred == -1) = true
  · simp only [hb, if_true]
    exact iff_of_false (reasons_fallback_ne_nil _ _) (by simp)
  · rw [Bool.not_eq_true] at hb
    simp [hb]

theorem statusUpdate_last_seen (ctx : MLContext) (device_id : String) (data : Payload)
    (sensor_type : String) (timestamp : Nat) :
    (process_sensor_data ctx device_id data sensor_type timestamp).statusUpdate.last_seen
      = some timestamp := by
  unfold process_sensor_data
  split
  · rfl
  split
  · rfl
  · rfl

theorem statusUpdate_state (ctx : MLContext) (device_id : String) (data : Payload)
    (sensor_type : String) (timestamp : Nat) :
    (process_sensor_data ctx device_id data sensor_type timestamp).statusUpdate.state
      = some (if (process_sensor_data ctx device_id data sensor_type timestamp).reading.is_anomaly
              then "threat" else "normal") := by
  unfold process_sensor_data
  split
  · rfl
  split
  · rfl
  · rfl

theorem alerts_shape (ctx : MLContext) (device_id : String) (data : Payload)
    (sensor_type : String) (timestamp : Nat) :
    ∃ a : Alert, a.timestamp = timestamp ∧
      (process_sensor_data ctx device_id data sensor_type timestamp).alerts
        = (if (process_sensor_data ctx device_id data sensor_type timestamp).reading.is_anomaly
           then [a] else []) := by
  unfold process_sensor_data
  split
  · by_cases hb : (data.pir_motion.getD 0 == 0) = true <;>
      exact ⟨{ device_id := device_id, timestamp := timestamp, type := "motion",
               severity := "high", pir_motion := some (data.pir_motion.getD 0),
               message := "üö® Motion Detected!", acknowledged := false },
             rfl, by simp [process_pir, hb]⟩
  split
  · by_cases hb : gasValueOf data > 500 <;>
      exact ⟨{ device_id := device_id, timestamp := timestamp, type := "gas",
               severity := "high", gas_level := some (gasValueOf data),
               message := "üî• High Gas Level Detected: " ++ toString (gasValueOf data),
               acknowledged := false },
             rfl, by simp [process_gas, hb]⟩
  · by_cases hb : (detect_anomaly ctx (data.temperature.getD 0) (data.humidity.getD 0)
        (data.gas_level.getD 0)).1 = true <;>
      exact ⟨{ device_id := device_id, timestamp := timestamp, type := "anomaly",
               severity := if (detect_anomaly ctx (data.temperature.getD 0)
                   (data.humidity.getD 0) (data.gas_level.getD 0)).2.1 < -(1/2 : Rat)
                 then "high" else "medium",
               temperature := some (data.temperature.getD 0),
               humidity := some (data.humidity.getD 0),
               gas_level := some (data.gas_level.getD 0),
               anomaly_score := some (detect_anomaly ctx (data.temperature.getD 0)
                   (data.humidity.getD 0) (data.gas_level.getD 0)).2.1,
               reasons := some (detect_anomaly ctx (data.temperature.getD 0)
                   (data.humidity.getD 0) (data.gas_level.getD 0)).2.2,
               message := match (detect_anomaly ctx (data.temperature.getD 0)
                   (data.humidity.getD 0) (data.gas_level.getD 0)).2.2 with
                 | [] => "Anomaly detected"
                 | _ => String.intercalate " | " (detect_anomaly ctx (data.temperature.getD 0)
                     (data.humidity.getD 0) (data.gas_level.getD 0)).2.2,
               acknowledged := false },
             rfl, by simp [process_env, hb]⟩

/-! ### Concrete fixtures used by witnesses and counterexamples -/

/-- A context in which neither artifact is loaded (model files absent). -/
def mlUnloaded : MLContext := { scaler := none, model := none }

/-- A loaded context whose classifier labels every sample anomalous with
score `-1` (an identity scaler and a constant model). -/
def mlAnomalous : MLContext :=
  { scaler := some (fun t h g => Except.ok ((t : Rat), (h : Rat), (g : Rat)))
    model := some (fun _ => Except.ok (-1, -1)) }

/-- Payload `{"pir_motion": 0}`. -/
def payloadPir0 : Payload := { pir_motion := some 0 }

/-- Payload `{"pir_motion": 1, "gas_value": 600}`. -/
def payloadOverlap : Payload := { pir_motion := some 1, gas_value := some 600 }

/-- Payload `{"gas_value": 800}`. -/
def payloadGas800 : Payload := { gas_value := some 800 }

/-- Payload `{"gas_value": 100}`. -/
def payloadGas100 : Payload := { gas_value := some 100 }

/-- A stored status node for a gas device last seen at time `5`. -/
def statusGas5 : StatusNode :=
  { state := some "normal", last_seen := some 5, sensor_type := some "gas" }

/-- A datastore holding `statusGas5` for device `gas_test`. -/
def dbBefore : DBState := { status := [("gas_test", statusGas5)] }

/-- A concrete gas alert record. -/
def alertGas : Alert :=
  { device_id := "gas_test", timestamp := 9, type := "gas", severity := "high",
    gas_level := some 800, message := "üî• High Gas Level Detected: 800",
    acknowledged := false }

/-! ### Claims -/

/-- Claim C1: for every pir reading (topic sensor-kind `pir` or payload
containing `pir_motion`), the verdict satisfies
`is_anomaly == (pir_motion == 0)` — the raw value 0 indicates motion, the
reading is anomalous exactly when motion is detected — and every alert the
branch emits has severity `high`. -/
theorem pir_verdict_is_motion (ctx : MLContext) (device_id : String) (data : Payload)
    (sensor_type : String) (timestamp : Nat)
    (h : sensor_type = "pir" ∨ data.pir_motion.isSome = true) :
    (process_sensor_data ctx device_id data sensor_type timestamp).reading.is_anomaly
        = (data.pir_motion.getD 0 == 0)
    ∧ ∀ a ∈ (process_sensor_data ctx device_id data sensor_type timestamp).alerts,
        a.severity = "high" := by
  rw [process_eq_pir ctx device_id data sensor_type timestamp h]
  refine ⟨rfl, ?_⟩
  intro a ha
  simp only [process_pir] at ha
  by_cases hb : (data.pir_motion.getD 0 == 0) = true <;> simp [hb] at ha
  rw [ha]

/-- Witness for C1: the pir reading `{"pir_motion": 0}` on a pir topic. -/
theorem pir_verdict_is_motion_witness :
    (process_sensor_data mlUnloaded "pir_test" payloadPir0 "pir" 7).reading.is_anomaly
        = (payloadPir0.pir_motion.getD 0 == 0)
    ∧ ∀ a ∈ (process_sensor_data mlUnloaded "pir_test" payloadPir0 "pir" 7).alerts,
        a.severity = "high" :=
  pir_verdict_is_motion mlUnloaded "pir_test" payloadPir0 "pir" 7 (Or.inl rfl)

/-- Counterexample to claim C2 as stated: the payload
`{"pir_motion": 1, "gas_value": 600}` on a gas topic is a gas reading in the
sense of the claim (topic sensor-kind `gas`), has `gas_value = 600 > 500`,
yet the pir branch is selected first (`"pir_motion" in data`), so the verdict
is not anomalous. -/
theorem gas_threshold_counterexample :
    ¬ ((process_sensor_data mlUnloaded "gas_test" payloadOverlap "gas" 0).reading.is_anomaly = true
        ↔ gasValueOf payloadOverlap > 500) := by
  decide

/-- Claim C2 (amended): for every gas reading that is not captured by the
pir branch (topic sensor-kind not `pir` and payload without `pir_motion`),
the verdict satisfies `is_anomaly ↔ gas_value > 500`, where `gas_value` is
read from `gas_value`, falling back to `gas_level`, then to `0`; every alert
emitted has severity `high` and its message carries the measured value. -/
theorem gas_verdict_threshold (ctx : MLContext) (device_id : String) (data : Payload)
    (sensor_type : String) (timestamp : Nat)
    (h1 : ¬ (sensor_type = "pir" ∨ data.pir_motion.isSome = true))
    (h2 : sensor_type = "gas" ∨ data.gas_value.isSome = true) :
    ((process_sensor_data ctx device_id data sensor_type timestamp).reading.is_anomaly = true
        ↔ gasValueOf data > 500)
    ∧ ∀ a ∈ (process_sensor_data ctx device_id data sensor_type timestamp).alerts,
        a.severity = "high"
        ∧ a.message = "üî• High Gas Level Detected: " ++ toString (gasValueOf data) := by
  rw [process_eq_gas ctx device_id data sensor_type timestamp h1 h2]
  constructor
  · simp [process_gas]
  · intro a ha
    simp only [process_gas] at ha
    by_cases hb : gasValueOf data > 500 <;> simp [hb] at ha
    rw [ha]
    exact ⟨rfl, rfl⟩

/-- Witness for C2 (amended): the gas reading `{"gas_value": 800}` on a gas
topic is anomalous and its alert message carries `800`. -/
theorem gas_verdict_threshold_witness :
    ((process_sensor_data mlUnloaded "gas_test" payloadGas800 "gas" 0).reading.is_anomaly = true
        ↔ gasValueOf payloadGas800 > 500)
    ∧ ∀ a ∈ (process_sensor_data mlUnloaded "gas_test" payloadGas800 "gas" 0).alerts,
        a.severity = "high"
        ∧ a.message = "üî• High Gas Level Detected: " ++ toString (gasValueOf payloadGas800) :=
  gas_verdict_threshold mlUnloaded "gas_test" payloadGas800 "gas" 0
    (by decide) (Or.inl rfl)

/-- Claim C9: for every topic string, with at least 3 slash-separated
segments the decoder takes segment 1 as the sensor-kind token and segment 2
as the device-name token and joins them with an underscore; with exactly 2
segments the device name defaults to `default`; with fewer than 2 segments
both fall back to the `unknown` sentinels. -/
theorem topic_decoding (topic : String) :
    (∀ a s1 s2 rest, split_topic topic = a :: s1 :: s2 :: rest →
        parse_topic topic = (s1, s2, s1 ++ "_" ++ s2))
    ∧ (∀ a s1, split_topic topic = [a, s1] →
        parse_topic topic = (s1, "default", s1 ++ "_default"))
    ∧ ((split_topic topic).length < 2 →
        parse_topic topic = ("unknown", "unknown", "unknown_device")) := by
  refine ⟨?_, ?_, ?_⟩
  · intro a s1 s2 rest hsplit
    unfold parse_topic
    rw [hsplit]
  · intro a s1 hsplit
    unfold parse_topic
    rw [hsplit]
  · intro hlen
    rcases hsplit : split_topic topic with _ | ⟨a, t⟩
    · unfold parse_topic
      rw [hsplit]
    rcases t with _ | ⟨b, t2⟩
    · unfold parse_topic
      rw [hsplit]
    · rw [hsplit] at hlen
      simp only [List.length_cons] at hlen
      omega

/-- Witness for C9: topic `x/pir/sensor1` decodes to device_id
`pir_sensor1`. -/
theorem topic_decoding_witness :
    parse_topic "x/pir/sensor1" = ("pir", "sensor1", "pir" ++ "_" ++ "sensor1") :=
  (topic_decoding "x/pir/sensor1").1 "x" "pir" "sensor1" [] (by decide)

/-- Claim C10: a reading on a pir topic whose payload lacks `pir_motion`
defaults the field to 0, which the motion predicate treats as motion
detected: the reading is anomalous, the status written for the device has
state `threat`, and exactly one alert of type `motion` is emitted. -/
theorem pir_missing_field_is_threat (ctx : MLContext) (device_id : String)
    (data : Payload) (timestamp : Nat) (h : data.pir_motion = none) :
    (process_sensor_data ctx device_id data "pir" timestamp).reading.is_anomaly = true
    ∧ (process_sensor_data ctx device_id data "pir" timestamp).statusUpdate.state
        = some "threat"
    ∧ (process_sensor_data ctx device_id data "pir" timestamp).alerts.map
        (fun a => a.type) = ["motion"] := by
  rw [process_eq_pir ctx device_id data "pir" timestamp (Or.inl rfl)]
  simp [process_pir, h]

/-- Witness for C10: the empty payload on a pir topic. -/
theorem pir_missing_field_is_threat_witness :
    (process_sensor_data mlUnloaded "pir_test" {} "pir" 3).reading.is_anomaly = true
    ∧ (process_sensor_data mlUnloaded "pir_test" {} "pir" 3).statusUpdate.state
        = some "threat"
    ∧ (process_sensor_data mlUnloaded "pir_test" {} "pir" 3).alerts.map
        (fun a => a.type) = ["motion"] :=
  pir_missing_field_is_threat mlUnloaded "pir_test" {} 3 rfl

/-- Claim C3: for every sensor kind and every processed reading, the
explanation (reasons) strings are non-empty exactly when the verdict is
anomalous; in particular, when the classifier marks a sample anomalous but
none of the fixed bound checks (temperature outside [10,40], humidity
outside [20,80], gas above 500) trigger, the generic
`Unusual sensor pattern detected` reason is used. -/
theorem reasons_nonempty_iff_anomaly :
    (∀ (ctx : MLContext) (device_id : String) (data : Payload)
        (sensor_type : String) (timestamp : Nat),
      ((process_sensor_data ctx device_id data sensor_type timestamp).reasons = []
        ↔ (process_sensor_data ctx device_id data sensor_type timestamp).reading.is_anomaly
            = false))
    ∧ (∀ (ctx : MLContext) (t h g : Int),
        (detect_anomaly ctx t h g).1 = true →
        ¬ (t > 40 ∨ t < 10) → ¬ (h > 80 ∨ h < 20) → ¬ (g > 500) →
        (detect_anomaly ctx t h g).2.2 = ["Unusual sensor pattern detected"]) := by
  constructor
  · intro ctx device_id data sensor_type timestamp
    unfold process_sensor_data
    split
    · by_cases hb : (data.pir_motion.getD 0 == 0) = true <;> simp [process_pir, hb]
    split
    · by_cases hb : gasValueOf data > 500 <;> simp [process_gas, hb]
    · simpa [process_env] using detect_reasons_empty_iff ctx (data.temperature.getD 0)
        (data.humidity.getD 0) (data.gas_level.getD 0)
  · intro ctx t h g h1 h2 h3 h4
    unfold detect_anomaly at h1 ⊢
    rcases hm : ctx.model with _ | m
    · simp [hm] at h1
    rcases hs : ctx.scaler with _ | s
    · simp [hm, hs] at h1
    rcases hr : s t h g with e | xs
    · simp [hm, hs, hr] at h1
    rcases hp : m xs with e | p
    · simp [hm, hs, hr, hp] at h1
    obtain ⟨pred, score⟩ := p
    simp only [hm, hs, hr, hp] at h1 ⊢
    simp at h1
    simp [h1, h2, h3, h4]

/-- Witness for C3: a constant always-anomalous classifier on the in-bounds
sample (20, 50, 100) yields the generic reason. -/
theorem reasons_nonempty_iff_anomaly_witness :
    (detect_anomaly mlAnomalous 20 50 100).2.2 = ["Unusual sensor pattern detected"] :=
  reasons_nonempty_iff_anomaly.2 mlAnomalous 20 50 100
    (by decide) (by decide) (by decide) (by decide)

/-- Claim C4: `detect_anomaly` fails open.  If either artifact is not loaded,
or the scoring path raises (modelled by an `Except.error` from the scaler or
the model), the verdict is `(false, 0, [])` — not anomalous, zero score,
empty reason set — rather than an exception. -/
theorem detect_anomaly_fail_open (ctx : MLContext) (t h g : Int) :
    (ctx.model = none ∨ ctx.scaler = none →
        detect_anomaly ctx t h g = (false, 0, []))
    ∧ (∀ s m, ctx.scaler = some s → ctx.model = some m →
        ((∃ e, s t h g = Except.error e)
          ∨ (∃ xs e, s t h g = Except.ok xs ∧ m xs = Except.error e)) →
        detect_anomaly ctx t h g = (false, 0, [])) := by
  constructor
  · intro hcase
    unfold detect_anomaly
    rcases hcase with hcase | hcase
    · rw [hcase]
    · rw [hcase]
      rcases ctx.model with _ | m <;> rfl
  · intro s m hs hm hcase
    unfold detect_anomaly
    rw [hs, hm]
    rcases hcase with ⟨e, he⟩ | ⟨xs, e, hxs, he⟩
    · simp [he]
    · simp [hxs, he]

/-- Witness for C4: with no artifacts loaded, the verdict is the fail-open
triple. -/
theorem detect_anomaly_fail_open_witness :
    detect_anomaly mlUnloaded 1 2 3 = (false, 0, []) :=
  (detect_anomaly_fail_open mlUnloaded 1 2 3).1 (Or.inl rfl)

/-- Claim C5: per processed reading, exactly one alert is appended to the
alert store when the verdict is anomalous and none otherwise — never more
than one. -/
theorem at_most_one_alert_per_reading (ctx : MLContext) (device_id : String)
    (data : Payload) (sensor_type : String) (timestamp : Nat)
    (status_write_ok : Bool) (db : DBState) :
    (process_db ctx device_id data sensor_type timestamp status_write_ok db).alerts.length
      = db.alerts.length
        + (if (process_sensor_data ctx device_id data sensor_type timestamp).reading.is_anomaly
           then 1 else 0) := by
  obtain ⟨a, hts, ha⟩ := alerts_shape ctx device_id data sensor_type timestamp
  unfold process_db
  rw [foldl_save_alert_alerts, ha]
  by_cases hb : (process_sensor_data ctx device_id data sensor_type timestamp).reading.is_anomaly
      = true <;>
    simp [hb, update_device_status, save_device_data]

/-- Claim C6: a message whose payload is not valid JSON is dropped by
`on_message`: the datastore (readings, alerts, device status) is untouched,
and a subsequent stream of messages is processed exactly as if the malformed
message had never arrived. -/
theorem malformed_payload_no_effect (ctx : MLContext) (topic : String) (e : String)
    (timestamp : Nat) (status_write_ok : Bool) (db : DBState)
    (rest : List (String × Except String Payload × Nat)) :
    on_message ctx topic (Except.error e) timestamp status_write_ok db = db
    ∧ runMessages ctx status_write_ok ((topic, Except.error e, timestamp) :: rest) db
        = runMessages ctx status_write_ok rest db := by
  constructor <;> rfl

/-! ### Status-node effects of one processed reading -/

theorem lookup_update_after_reading (db : DBState) (device_id : String)
    (rd : ReadingData) (u : StatusNode) :
    lookupStatus (update_device_status (save_device_data db device_id rd) device_id u).status
        device_id
      = mergeStatus (lookupStatus db.status device_id) u := by
  simp [update_device_status, save_device_data, lookup_set_same]

theorem save_alert_status_of_fail (db : DBState) (device_id : String) (a : Alert) :
    (save_alert db device_id a false).status = db.status := rfl

theorem save_alert_status_of_ok (db : DBState) (device_id : String) (a : Alert) :
    lookupStatus (save_alert db device_id a true).status device_id
      = { state := some "threat", last_alert := some a.timestamp,
          message := some a.message } := by
  simp [save_alert, lookup_set_same]

theorem process_db_last_seen (ctx : MLContext) (device_id : String) (data : Payload)
    (sensor_type : String) (timestamp : Nat) (status_write_ok : Bool) (db : DBState) :
    (lookupStatus (process_db ctx device_id data sensor_type timestamp status_write_ok db).status
        device_id).last_seen
      = if (process_sensor_data ctx device_id data sensor_type timestamp).reading.is_anomaly
            ∧ status_write_ok
        then none else some timestamp := by
  obtain ⟨a, hts, ha⟩ := alerts_shape ctx device_id data sensor_type timestamp
  simp only [process_db]
  rw [ha]
  by_cases hb : (process_sensor_data ctx device_id data sensor_type timestamp).reading.is_anomaly
      = true
  · rw [if_pos hb]
    cases status_write_ok
    · simp only [List.foldl_cons, List.foldl_nil, save_alert_status_of_fail,
        lookup_update_after_reading]
      simp [mergeStatus, mergeField, statusUpdate_last_seen, hb]
    · simp only [List.foldl_cons, List.foldl_nil, save_alert_status_of_ok]
      simp [hb, hts]
  · rw [if_neg hb]
    simp only [List.foldl_nil, lookup_update_after_reading]
    simp [mergeStatus, mergeField, statusUpdate_last_seen, hb]

theorem process_db_state (ctx : MLContext) (device_id : String) (data : Payload)
    (sensor_type : String) (timestamp : Nat) (status_write_ok : Bool) (db : DBState) :
    (lookupStatus (process_db ctx device_id data sensor_type timestamp status_write_ok db).status
        device_id).state
      = some (if (process_sensor_data ctx device_id data sensor_type timestamp).reading.is_anomaly
              then "threat" else "normal") := by
  obtain ⟨a, hts, ha⟩ := alerts_shape ctx device_id data sensor_type timestamp
  simp only [process_db]
  rw [ha]
  by_cases hb : (process_sensor_data ctx device_id data sensor_type timestamp).reading.is_anomaly
      = true
  · rw [if_pos hb]
    cases status_write_ok
    · simp only [List.foldl_cons, List.foldl_nil, save_alert_status_of_fail,
        lookup_update_after_reading]
      simp [mergeStatus, mergeField, statusUpdate_state, hb]
    · simp only [List.foldl_cons, List.foldl_nil, save_alert_status_of_ok]
      simp [hb]
  · rw [if_neg hb]
    simp only [List.foldl_nil, lookup_update_after_reading]
    simp [mergeStatus, mergeField, statusUpdate_state, hb]

/-- Counterexample to claim C7 as stated: the secondary status write of
`save_alert` is a `set`, not an `update` — it replaces the whole
`/devices/{id}/status` node, so a previously stored `last_seen` and
`sensor_type` are erased rather than left unchanged. -/
theorem save_alert_frame_counterexample :
    (lookupStatus dbBefore.status "gas_test").last_seen = some 5
    ∧ (lookupStatus (save_alert dbBefore "gas_test" alertGas true).status
        "gas_test").last_seen = none
    ∧ (lookupStatus (save_alert dbBefore "gas_test" alertGas true).status
        "gas_test").sensor_type = none := by
  decide

/-- Claim C7 (amended): when `save_alert` persists an alert, the alert is
appended to the alert store; the secondary write then replaces the whole
device status node with exactly `{state: "threat", last_alert, message}`,
erasing every other stored field, rather than modifying only the last-alert
pointer fields.  A failure of this secondary write (modelled by
`ok = false`) leaves the status store untouched and does not undo the
already-appended alert. -/
theorem save_alert_replaces_status (db : DBState) (device_id : String) (a : Alert)
    (ok : Bool) :
    (save_alert db device_id a ok).alerts = db.alerts ++ [a]
    ∧ (ok = true → lookupStatus (save_alert db device_id a ok).status device_id
        = { state := some "threat", last_alert := some a.timestamp,
            message := some a.message })
    ∧ (ok = false → (save_alert db device_id a ok).status = db.status) := by
  refine ⟨save_alert_alerts db device_id a ok, ?_, ?_⟩
  · intro h
    subst h
    exact save_alert_status_of_ok db device_id a
  · intro h
    subst h
    rfl

/-- Witness for C7 (amended): a concrete alert written over a stored gas
status node. -/
theorem save_alert_replaces_status_witness :
    (save_alert dbBefore "gas_test" alertGas true).alerts = dbBefore.alerts ++ [alertGas]
    ∧ lookupStatus (save_alert dbBefore "gas_test" alertGas true).status "gas_test"
        = { state := some "threat", last_alert := some alertGas.timestamp,
            message := some alertGas.message } :=
  ⟨(save_alert_replaces_status dbBefore "gas_test" alertGas true).1,
   (save_alert_replaces_status dbBefore "gas_test" alertGas true).2.1 rfl⟩

/-- The datastore after a normal gas reading processed at time 5. -/
def dbPass1 : DBState := process_db mlUnloaded "gas_test" payloadGas100 "gas" 5 true {}

/-- The same reading replayed with an older processing timestamp 3. -/
def dbPass2 : DBState := process_db mlUnloaded "gas_test" payloadGas100 "gas" 3 true dbPass1

/-- Counterexample to claim C8 as stated: the state store is last-write-wins
(`last_seen` is unconditionally overwritten with the processing timestamp),
so replaying the identical reading with a timestamp 3 that is not newer than
the stored `last_seen = 5` moves `last_seen` backward to 3. -/
theorem last_seen_regression_counterexample :
    (lookupStatus dbPass1.status "gas_test").last_seen = some 5
    ∧ (lookupStatus dbPass2.status "gas_test").last_seen = some 3
    ∧ (3 : Nat) < 5 := by
  decide

/-- Claim C8 (amended): replaying the identical reading with a processing
timestamp equal to the stored `last_seen` (the only case the claim permits
that last-write-wins does not break) leaves `last_seen` unchanged and leaves
`state` equal to the verdict of the most recently applied reading. -/
theorem replay_no_regression (ctx : MLContext) (device_id : String) (data : Payload)
    (sensor_type : String) (ts ts' : Nat) (ok : Bool) (db : DBState)
    (h : (lookupStatus (process_db ctx device_id data sensor_type ts ok db).status
            device_id).last_seen = some ts') :
    (lookupStatus (process_db ctx device_id data sensor_type ts' ok
        (process_db ctx device_id data sensor_type ts ok db)).status device_id).last_seen
      = some ts'
    ∧ (lookupStatus (process_db ctx device_id data sensor_type ts' ok
        (process_db ctx device_id data sensor_type ts ok db)).status device_id).state
      = (lookupStatus (process_db ctx device_id data sensor_type ts ok db).status
            device_id).state := by
  rw [process_db_last_seen] at h
  by_cases hb : (process_sensor_data ctx device_id data sensor_type ts).reading.is_anomaly
      = true ∧ ok = true
  · rw [if_pos hb] at h
    exact absurd h (by simp)
  · rw [if_neg hb] at h
    have hts := Option.some.inj h
    subst hts
    constructor
    · rw [process_db_last_seen, if_neg hb]
    · rw [process_db_state, process_db_state]

/-- Witness for C8 (amended): a normal gas reading processed at time 5 and
replayed at time 5 keeps `last_seen = 5` and the same state. -/
theorem replay_no_regression_witness :
    (lookupStatus (process_db mlUnloaded "gas_test" payloadGas100 "gas" 5 true
        (process_db mlUnloaded "gas_test" payloadGas100 "gas" 5 true {})).status
        "gas_test").last_seen = some 5
    ∧ (lookupStatus (process_db mlUnloaded "gas_test" payloadGas100 "gas" 5 true
        (process_db mlUnloaded "gas_test" payloadGas100 "gas" 5 true {})).status
        "gas_test").state
      = (lookupStatus (process_db mlUnloaded "gas_test" payloadGas100 "gas" 5 true
          ({} : DBState)).status "gas_test").state :=
  replay_no_regression mlUnloaded "gas_test" payloadGas100 "gas" 5 5 true {} (by decide)
